import Mathlib

/-!
Verification development for the NIRScan Nano substance-scanner application.

The development shallowly embeds the two Python modules of the repository:

* `classify.py` — artifact discovery in the scans directory, staleness
  baseline, absorbance validation, first-difference preprocessing,
  length adjustment (pad/truncate), arg-max threshold classification, and
  the orchestrating `main` function (instrumented with a ghost flag that
  records whether the inference model was invoked, and with the artifact
  that was accepted for processing).
* `app.py` — the voltage-to-button mapping, the edge-detecting input
  poller, the UI state machine (`handle_input`), the scan worker spawn
  (`start_scan`) and the worker's completion write-back, instrumented
  with a ghost count of concurrently active workers.

Numbers that are Python floats (millivolts, file mtimes, absorbance,
model outputs, confidences) are modelled as rationals `ℚ`.  A Python
`None` return is modelled as `Option.none`; an exception escaping to an
enclosing `except` handler is likewise modelled by the `none` branch of
the corresponding `Option`-valued field of the environment.
-/

namespace Scanner

/-! ### classify.py: constants -/

/-- Fixed class names, from `CLASS_NAMES = ["MSG", "Salt", "Sugar"]`. -/
def CLASS_NAMES : List String := ["MSG", "Salt", "Sugar"]

/-- Label returned below threshold, from `UNDETECTED_LABEL = "Undetected"`. -/
def UNDETECTED_LABEL : String := "Undetected"

/-- Confidence threshold, from `CONF_THRESHOLD = 0.8`. -/
def CONF_THRESHOLD : ℚ := 8/10

/-- Error message of the data-validation branch of `classify.main`. -/
def SCAN_AGAIN_MSG : String :=
  "Not enough valid absorbance points to compute differences. Please scan again!"

/-! ### classify.py: artifact discovery -/

/-- An entry of the scans directory: base name (stem), whether the file
matches the `*.csv` glob, and its modification time `st_mtime`. -/
structure FileEntry where
  stem : String
  isCsv : Bool
  mtime : ℚ
  deriving DecidableEq, Repr

/-- Candidate predicate of `find_latest_csv_without_prefix`: the file is a
`.csv` and its stem satisfies Python `str.isdigit` (nonempty, all digits;
stated over the character list of the stem). -/
def isCandidate (f : FileEntry) : Bool :=
  f.isCsv && !f.stem.data.isEmpty && f.stem.data.all Char.isDigit

/-- Python `max(candidates, key=mtime)`: leftmost entry of maximal mtime. -/
def maxByMtime (f : FileEntry) (fs : List FileEntry) : FileEntry :=
  fs.foldl (fun acc g => if acc.mtime < g.mtime then g else acc) f

/-- Embedding of `find_latest_csv_without_prefix(scans_dir)` (the source
name ends in a word this development avoids): filter the directory listing
to digit-stem `.csv` files and return the maximal-mtime one, or `none` when
there is no candidate (or the directory is absent, modelled as `[]`). -/
def find_latest_csv (files : List FileEntry) : Option FileEntry :=
  match files.filter isCandidate with
  | [] => none
  | f :: fs => some (maxByMtime f fs)

/-! ### classify.py: absorbance values and preprocessing -/

/-- An absorbance sample: either the NaN sentinel or a real value. -/
inductive AbsVal where
  | nan : AbsVal
  | val (q : ℚ) : AbsVal
  deriving DecidableEq, Repr

/-- Test for the sentinel, as used by `np.isnan`. -/
def AbsVal.isNaN : AbsVal → Bool
  | .nan => true
  | .val _ => false

/-- Embedding of `np.isnan(absorbance_vals).any()`. -/
def hasNaN (xs : List AbsVal) : Bool := xs.any AbsVal.isNaN

/-- Numeric content of a sample; only consulted after the NaN check. -/
def AbsVal.toRat : AbsVal → ℚ
  | .nan => 0
  | .val q => q

/-- Embedding of `np.diff`: consecutive differences, length `n - 1`. -/
def npDiff (xs : List ℚ) : List ℚ :=
  List.zipWith (fun a b => b - a) xs xs.tail

/-- Length-adjustment step of `run_model`: keep the array if it already has
the expected length, right-pad with the last value (0.0 when empty) when it
is short, truncate to the expected length when it is long. -/
def adjustLength (xs : List ℚ) (expectedLen : Nat) : List ℚ :=
  if xs.length = expectedLen then xs
  else if xs.length < expectedLen then
    xs ++ List.replicate (expectedLen - xs.length) (xs.getLastD 0)
  else xs.take expectedLen

/-! ### classify.py: arg-max classification -/

/-- First index of the maximum of a list, as `int(np.argmax(probs))`
computes it (0 on the empty list, where numpy instead raises). -/
def argmaxIdx : List ℚ → Nat
  | [] => 0
  | [_] => 0
  | x :: y :: rest =>
    let j := argmaxIdx (y :: rest)
    if x < (y :: rest).getD j 0 then j + 1 else 0

/-- Embedding of `classify(output)`.  Returns `none` where the Python
function raises: on the empty vector (`np.argmax` raises) and, in the
detected branch, when the arg-max index falls outside `CLASS_NAMES`
(`CLASS_NAMES[idx]` raises IndexError). -/
def classifyFn (output : List ℚ) : Option (String × ℚ × List ℚ) :=
  match output with
  | [] => none
  | _ :: _ =>
    let idx := argmaxIdx output
    let conf := output.getD idx 0
    if conf < CONF_THRESHOLD then some (UNDETECTED_LABEL, conf, output)
    else if idx < CLASS_NAMES.length then
      some (CLASS_NAMES.getD idx "", conf, output)
    else none

/-! ### classify.py: the main pipeline -/

/-- External world of one `classify.main()` run: the directory listing
before the scan, whether `run_scan_substance` succeeds (a non-zero exit
status or a missing script raises, caught by the first handler), the
directory listing after the scan, what `read_absorbance_column` yields on
the accepted artifact (`none` models an exception while reading), the
interpreter's expected input length, and the interpreter's output on the
tensor it is fed (`none` models an exception inside `run_model`,
including the unsupported-shape branches, or inside `classify`). -/
structure Env where
  preFiles : List FileEntry
  scanOk : Bool
  postFiles : List FileEntry
  readAbs : Option (List AbsVal)
  expectedLen : Nat
  infer : List ℚ → Option (List ℚ)

/-- Result of one `classify.main()` run, instrumented: the artifact
accepted for processing (past the staleness guard), a ghost flag set
exactly when the inference model is invoked, and the returned value —
`none` models Python returning `None`. -/
structure MainTrace where
  processed : Option FileEntry
  modelInvoked : Bool
  ret : Option (String × ℚ × String)

/-- Baseline mtime recorded before the scan:
`pre_latest.stat().st_mtime if pre_latest else None`. -/
def baselineOf (env : Env) : Option ℚ :=
  (find_latest_csv env.preFiles).map FileEntry.mtime

/-- The try-block of `classify.main` once `latest` has been accepted:
read the absorbance column, validate (no NaN, at least 228 points),
difference, length-adjust, infer, classify.  Any exception (modelled by a
`none` from `readAbs`, `infer` or `classifyFn`) reaches the trailing
handler, which returns `None`. -/
def processArtifact (env : Env) (latest : FileEntry) : MainTrace :=
  match env.readAbs with
  | none => ⟨some latest, false, none⟩
  | some vals =>
    if hasNaN vals || vals.length < 228 then
      ⟨some latest, false, some ("", 0, SCAN_AGAIN_MSG)⟩
    else
      let delta := npDiff (vals.map AbsVal.toRat)
      match env.infer (adjustLength delta env.expectedLen) with
      | none => ⟨some latest, true, none⟩
      | some output =>
        match classifyFn output with
        | none => ⟨some latest, true, none⟩
        | some (label, conf, _) => ⟨some latest, true, some (label, conf, "")⟩

/-- Embedding of `classify.main()`: record the baseline, trigger the scan
(an acquisition failure returns `None`), re-discover the latest candidate
(`None` when absent), reject a candidate whose mtime does not strictly
exceed the baseline (`None`), then process the accepted artifact. -/
def mainRun (env : Env) : MainTrace :=
  let baseline := baselineOf env
  if !env.scanOk then ⟨none, false, none⟩
  else
    match find_latest_csv env.postFiles with
    | none => ⟨none, false, none⟩
    | some latest =>
      match baseline with
      | some m =>
        if latest.mtime ≤ m then ⟨none, false, none⟩
        else processArtifact env latest
      | none => processArtifact env latest

/-! ### app.py: buttons and the input poller -/

/-- The four physical buttons of `detect_button`. -/
inductive Button where
  | enter : Button
  | up : Button
  | down : Button
  | right : Button
  deriving DecidableEq, Repr

/-- Embedding of `detect_button(mv)`: near-zero millivolts map to ENTER,
the ranges [70, 160], [200, 350] and [450, 700] map to UP, DOWN and
RIGHT, anything else (the bus-failure sentinel 9999 included) to `none`. -/
def detect_button (mv : ℚ) : Option Button :=
  if mv < 20 then some .enter
  else if 70 ≤ mv ∧ mv ≤ 160 then some .up
  else if 200 ≤ mv ∧ mv ≤ 350 then some .down
  else if 450 ≤ mv ∧ mv ≤ 700 then some .right
  else none

/-- One iteration of the `poll_buttons` loop body, as a fold step over the
pair (last_press accumulator, queue of appended events): on a change of
mapping, append the new mapping when it is a button and update the
accumulator; otherwise leave both untouched. -/
def pollStep (st : Option Button × List Button) (mv : ℚ) :
    Option Button × List Button :=
  let btn := detect_button mv
  if btn = st.1 then st
  else (btn, st.2 ++ btn.toList)

/-- The poller folded over a finite sequence of voltage samples, starting
from a last-press accumulator and an already-emitted queue. -/
def pollRun (st : Option Button × List Button) (mvs : List ℚ) :
    Option Button × List Button :=
  mvs.foldl pollStep st

/-! ### app.py: UI state machine and scan worker -/

/-- The two top-level screens of the UI. -/
inductive Screen where
  | menu : Screen
  | scan : Screen
  deriving DecidableEq, Repr

/-- The `scan_status` field values. -/
inductive ScanStatus where
  | idle : ScanStatus
  | scanning : ScanStatus
  | result : ScanStatus
  | error : ScanStatus
  deriving DecidableEq, Repr

/-- The mutable fields of `TFTApp` the claims are about, plus a ghost
count `activeWorkers` of spawned, not-yet-finished worker threads. -/
structure AppState where
  running : Bool
  currentScreen : Screen
  focusIndex : Nat
  scanStatus : ScanStatus
  resultText : String
  confText : String
  activeWorkers : Nat
  deriving DecidableEq, Repr

/-- The state after `TFTApp.__init__`. -/
def initState : AppState :=
  ⟨true, .menu, 0, .idle, "", "", 0⟩

/-- Embedding of `TFTApp.start_scan`: set `scan_status = "SCANNING"` and
spawn a worker thread (ghost-counted). -/
def start_scan (s : AppState) : AppState :=
  { s with scanStatus := .scanning, activeWorkers := s.activeWorkers + 1 }

/-- Embedding of `TFTApp.handle_input(key)`. -/
def handle_input (s : AppState) (key : Button) : AppState :=
  match s.currentScreen with
  | .menu =>
    match key with
    | .up | .down => { s with focusIndex := 1 - s.focusIndex }
    | .enter =>
      if s.focusIndex = 0 then
        { s with currentScreen := .scan, scanStatus := .idle }
      else
        { s with running := false }
    | .right => s
  | .scan =>
    match key with
    | .enter => if s.scanStatus ≠ .scanning then start_scan s else s
    | .right => { s with currentScreen := .menu }
    | .up | .down => s

/-- Outcome a worker run produces before writing back: either the
unpacked triple from `classify.main()`, or an exception caught by the
worker's handler (carrying `str(e)`). -/
inductive WorkerOutcome where
  | ok (res : String) (conf : ℚ) (err : String) : WorkerOutcome
  | crash (msg : String) : WorkerOutcome
  deriving DecidableEq, Repr

/-- What the worker body obtains from `classify.main()` in environment
`env`: unpacking a returned `None` into three names raises `TypeError`,
which the worker's handler catches. -/
def workerOutcome (env : Env) : WorkerOutcome :=
  match (mainRun env).ret with
  | none => .crash "cannot unpack non-iterable NoneType object"
  | some (label, conf, err) => .ok label conf err

/-- Rendering of `f-string conf*100:.1f percent` for the result screen;
the decimal formatting itself is irrelevant to every claim. -/
def pctString (conf : ℚ) : String := toString (conf * 100) ++ "%"

/-- Write-back of the worker body (after the minimum-animation sleep):
an error string yields ERROR/"SYS ERR", an Undetected or UNKNOWN result
yields RESULT/"UNDETECTED", any other result yields RESULT with the
upper-cased label; an exception yields ERROR/"CRASH" with `str(e)`. -/
def workerFinish (s : AppState) (o : WorkerOutcome) : AppState :=
  match o with
  | .crash msg =>
    { s with scanStatus := .error, resultText := "CRASH", confText := msg }
  | .ok res conf err =>
    if err ≠ "" then
      { s with scanStatus := .error, resultText := "SYS ERR", confText := err }
    else if res = "Undetected" ∨ res = "UNKNOWN" then
      { s with scanStatus := .result, resultText := "UNDETECTED",
               confText := "---" }
    else
      { s with scanStatus := .result, resultText := res.toUpper,
               confText := pctString conf }

/-- An event of the interleaved system: a button event drained by the
render loop, or the asynchronous completion of a worker thread. -/
inductive Event where
  | press (b : Button) : Event
  | finish (o : WorkerOutcome) : Event
  deriving DecidableEq, Repr

/-- One step of the interleaved system.  Button events are processed only
while the main loop is running; a completion event is the write-back of
one active worker (and decrements the ghost count), a no-op when no
worker is active. -/
def step (s : AppState) (e : Event) : AppState :=
  match e with
  | .press b => if s.running then handle_input s b else s
  | .finish o =>
    if s.activeWorkers ≠ 0 then
      { workerFinish s o with activeWorkers := s.activeWorkers - 1 }
    else s

/-- A finite event trace, folded through `step`. -/
def runEvents (s : AppState) (es : List Event) : AppState :=
  es.foldl step s

/-- The one hazardous event: pressing ENTER on the menu with the focus on
INITIATE SCAN while a worker is still active.  `handle_input` then resets
`scan_status` to IDLE even though a worker is running. -/
def badReentry (s : AppState) (e : Event) : Bool :=
  s.running && decide (s.currentScreen = .menu) &&
    decide (e = Event.press .enter) && s.focusIndex == 0 &&
    s.activeWorkers != 0

/-- A trace is good when no hazardous re-entry ever occurs along it. -/
def goodTrace : AppState → List Event → Bool
  | _, [] => true
  | s, e :: es => !badReentry s e && goodTrace (step s e) es

/-- Ghost invariant tying the worker count to the SCANNING status. -/
def WorkerInv (s : AppState) : Prop :=
  s.activeWorkers = if s.scanStatus = .scanning then 1 else 0

/-- The voltage range a button occupies, read off the guards of
`detect_button`. -/
def buttonRange (b : Button) (mv : ℚ) : Prop :=
  match b with
  | .enter => mv < 20
  | .up => 70 ≤ mv ∧ mv ≤ 160
  | .down => 200 ≤ mv ∧ mv ≤ 350
  | .right => 450 ≤ mv ∧ mv ≤ 700

instance (b : Button) (mv : ℚ) : Decidable (buttonRange b mv) := by
  cases b <;> simp only [buttonRange] <;> infer_instance

/-! ## Theorems -/

/-- Claim C8: for every voltage sample outside every defined range,
`detect_button` returns `none`; the bus-failure sentinel 9999 maps to
`none`; and the four ranges are pairwise non-overlapping, so every sample
maps to at most one button. -/
theorem claim8_button_mapping_totality (mv : ℚ) :
    ((∀ b : Button, ¬ buttonRange b mv) → detect_button mv = none) ∧
    detect_button 9999 = none ∧
    (∀ b b' : Button, b ≠ b' → buttonRange b mv → ¬ buttonRange b' mv) := by
  refine ⟨?_, by decide, ?_⟩
  · intro h
    unfold detect_button
    have he := h .enter
    have hu := h .up
    have hd := h .down
    have hr := h .right
    simp only [buttonRange] at he hu hd hr
    rw [if_neg he, if_neg hu, if_neg hd, if_neg hr]
  · intro b b' hne hb hb'
    cases b <;> cases b' <;>
      simp only [buttonRange] at hb hb' <;>
      first
        | exact hne rfl
        | (obtain ⟨h1, h2⟩ := hb; obtain ⟨h3, h4⟩ := hb'; linarith)
        | (obtain ⟨h1, h2⟩ := hb; linarith)
        | (obtain ⟨h3, h4⟩ := hb'; linarith)

/-- Witness for C8 at the gap sample 180 mV and at the pair UP/DOWN. -/
theorem claim8_button_mapping_totality_witness :
    detect_button 180 = none ∧ detect_button 9999 = none ∧
    ¬ buttonRange Button.down (100 : ℚ) :=
  ⟨(claim8_button_mapping_totality 180).1 (by intro b; cases b <;> decide),
   (claim8_button_mapping_totality 180).2.1,
   (claim8_button_mapping_totality 100).2.2 Button.up Button.down
     (by decide) (by constructor <;> norm_num)⟩

/-- Claim C9: right-padding a non-empty array with its last element up to
a length `L ≥ n` and then truncating back to the first `n` elements is the
identity; and the length-adjustment step of `run_model` is the identity on
inputs already of the expected length. -/
theorem claim9_pad_truncate_roundtrip (xs : List ℚ) (_hne : xs ≠ [])
    (L : Nat) (hL : xs.length ≤ L) :
    (adjustLength xs L).take xs.length = xs ∧
    adjustLength xs xs.length = xs := by
  constructor
  · unfold adjustLength
    by_cases h : xs.length = L
    · rw [if_pos h, List.take_length]
    · rw [if_neg h, if_pos (lt_of_le_of_ne hL h)]
      exact List.take_left xs _
  · simp [adjustLength]

/-- Witness for C9 on a concrete length-2 array padded to length 4. -/
theorem claim9_pad_truncate_roundtrip_witness :
    (adjustLength [(3 : ℚ), 5] 4).take 2 = [(3 : ℚ), 5] ∧
    adjustLength [(3 : ℚ), 5] 2 = [(3 : ℚ), 5] :=
  claim9_pad_truncate_roundtrip [3, 5] (by decide) 4 (by decide)

/-! ## Single-flight (C1) -/

/-- Every branch of the worker write-back leaves SCANNING: the status
afterwards is RESULT or ERROR. -/
lemma workerFinish_status (s : AppState) (o : WorkerOutcome) :
    (workerFinish s o).scanStatus = .result ∨
    (workerFinish s o).scanStatus = .error := by
  cases o with
  | crash msg => right; rfl
  | ok res conf err =>
    unfold workerFinish
    dsimp only
    split
    · right; rfl
    · split
      · left; rfl
      · left; rfl

/-- The worker write-back does not touch the ghost worker count. -/
lemma workerFinish_workers (s : AppState) (o : WorkerOutcome) :
    (workerFinish s o).activeWorkers = s.activeWorkers := by
  cases o with
  | crash msg => rfl
  | ok res conf err =>
    unfold workerFinish
    dsimp only
    split
    · rfl
    · split <;> rfl

/-- The ghost invariant holds initially. -/
lemma workerInv_init : WorkerInv initState := by
  unfold WorkerInv
  decide

/-- The ghost invariant is preserved by every event that is not a
hazardous re-entry. -/
lemma workerInv_step (s : AppState) (e : Event) (hinv : WorkerInv s)
    (hgood : badReentry s e = false) : WorkerInv (step s e) := by
  obtain ⟨run, scr, foc, st, rt, ct, aw⟩ := s
  unfold WorkerInv at hinv ⊢
  dsimp only at hinv
  cases e with
  | finish o =>
    unfold step
    dsimp only
    by_cases hw : aw ≠ 0
    · rw [if_pos hw]
      have hst : st = ScanStatus.scanning := by
        by_contra hne
        rw [if_neg hne] at hinv
        exact hw hinv
      subst hst
      rw [if_pos rfl] at hinv
      dsimp only
      rcases workerFinish_status ⟨run, scr, foc, .scanning, rt, ct, aw⟩ o
        with h | h <;> rw [h] <;> simp [hinv]
    · rw [if_neg hw]
      dsimp only
      exact hinv
  | press b =>
    unfold step
    dsimp only
    by_cases hr : run = true
    · rw [if_pos hr]
      unfold handle_input
      cases scr with
      | menu =>
        cases b with
        | up => dsimp only; exact hinv
        | down => dsimp only; exact hinv
        | right => dsimp only; exact hinv
        | enter =>
          dsimp only
          by_cases hf : foc = 0
          · rw [if_pos hf]
            have hw : aw = 0 := by
              unfold badReentry at hgood
              dsimp only at hgood
              simp [hr, hf] at hgood
              exact hgood
            dsimp only
            simp [hw]
          · rw [if_neg hf]
            dsimp only
            exact hinv
      | scan =>
        cases b with
        | up => dsimp only; exact hinv
        | down => dsimp only; exact hinv
        | right => dsimp only; exact hinv
        | enter =>
          dsimp only
          by_cases hst : st ≠ ScanStatus.scanning
          · rw [if_pos hst]
            unfold start_scan
            rw [if_neg hst] at hinv
            dsimp only
            simp [hinv]
          · rw [if_neg hst]
            dsimp only
            exact hinv
    · rw [if_neg hr]
      dsimp only
      exact hinv

/-- The ghost invariant propagates along every good trace. -/
lemma workerInv_run (es : List Event) (s : AppState) (hinv : WorkerInv s)
    (hgood : goodTrace s es = true) : WorkerInv (runEvents s es) := by
  induction es generalizing s with
  | nil => exact hinv
  | cons e rest ih =>
    unfold goodTrace at hgood
    rw [Bool.and_eq_true, Bool.not_eq_true'] at hgood
    exact ih (step s e) (workerInv_step s e hinv hgood.1) hgood.2

/-- Claim C1 as stated is false: from the initial state, the button
sequence ENTER (menu → scan), ENTER (start first worker), RIGHT (back to
menu), ENTER (re-enter scan, which resets the status to IDLE), ENTER
(start a second worker) leaves two workers running concurrently. -/
theorem claim1_single_flight_counterexample :
    (runEvents initState
      [.press .enter, .press .enter, .press .right,
       .press .enter, .press .enter]).activeWorkers = 2 := by
  decide

/-- Claim C1, amended: an ENTER on the scan screen while the status is
SCANNING is a no-op (no state change, no second worker), and along every
event trace that never presses ENTER on the menu with focus on INITIATE
SCAN while a worker is still active, at most one worker is ever running
concurrently.  The navigation path the original claim also covered —
leaving the scan screen with RIGHT and re-entering it from the menu while
a prior worker is still running — defeats the guard, because re-entry
resets `scan_status` to IDLE. -/
theorem claim1_single_flight_amended :
    (∀ s : AppState, s.currentScreen = .scan → s.scanStatus = .scanning →
      step s (.press .enter) = s) ∧
    (∀ es : List Event, goodTrace initState es = true →
      (runEvents initState es).activeWorkers ≤ 1) := by
  constructor
  · intro s hsc hst
    obtain ⟨run, scr, foc, st, rt, ct, aw⟩ := s
    dsimp only at hsc hst
    subst hsc
    subst hst
    unfold step
    dsimp only
    by_cases hr : run = true
    · rw [if_pos hr]
      unfold handle_input
      dsimp only
      rw [if_neg (by simp)]
    · rw [if_neg hr]
  · intro es hgood
    have h := workerInv_run es initState workerInv_init hgood
    unfold WorkerInv at h
    rw [h]
    split <;> omega

/-- Witness for the amended C1: a no-op ENTER on a concrete SCANNING
state, and the bound on the concrete good trace ENTER, ENTER, ENTER. -/
theorem claim1_single_flight_amended_witness :
    step ⟨true, .scan, 0, .scanning, "", "", 1⟩ (.press .enter) =
      ⟨true, .scan, 0, .scanning, "", "", 1⟩ ∧
    (runEvents initState
      [.press .enter, .press .enter, .press .enter]).activeWorkers ≤ 1 :=
  ⟨claim1_single_flight_amended.1 ⟨true, .scan, 0, .scanning, "", "", 1⟩
      rfl rfl,
   claim1_single_flight_amended.2
      [.press .enter, .press .enter, .press .enter] (by decide)⟩

/-! ## Debounce (C7) -/

/-- While every sample keeps mapping to the held button, the poller state
is unchanged: no further event is appended. -/
lemma pollRun_held (b : Button) (q : List Button) (mvs : List ℚ)
    (h : ∀ mv ∈ mvs, detect_button mv = some b) :
    pollRun (some b, q) mvs = (some b, q) := by
  induction mvs with
  | nil => rfl
  | cons m rest ih =>
    unfold pollRun at ih ⊢
    rw [List.foldl_cons]
    have hm : detect_button m = some b := h m (List.mem_cons_self m rest)
    have hstep : pollStep (some b, q) m = (some b, q) := by
      unfold pollStep
      rw [hm]
      simp
    rw [hstep]
    exact ih fun mv hmv => h mv (List.mem_cons_of_mem m hmv)

/-- While every sample maps to no button, the poller state converges to
accumulator `none` without appending anything. -/
lemma pollRun_released (st : Option Button) (q : List Button)
    (mvs : List ℚ) (hne : mvs ≠ [])
    (h : ∀ mv ∈ mvs, detect_button mv = none) :
    pollRun (st, q) mvs = (none, q) := by
  induction mvs generalizing st with
  | nil => exact absurd rfl hne
  | cons m rest ih =>
    have hm : detect_button m = none := h m (List.mem_cons_self m rest)
    have hstep : pollStep (st, q) m = (none, q) := by
      unfold pollStep
      rw [hm]
      by_cases hst : (none : Option Button) = st
      · rw [if_pos hst, ← hst]
      · rw [if_neg hst]
        simp
    unfold pollRun
    rw [List.foldl_cons]
    unfold pollRun at ih
    rw [hstep]
    cases rest with
    | nil => rfl
    | cons m2 rest2 =>
      apply ih
      · simp
      · intro mv hmv
        exact h mv (List.mem_cons_of_mem m hmv)

/-- From a non-`b` accumulator, a nonempty run of samples mapping to `b`
appends exactly one `b` event. -/
lemma pollRun_press (b : Button) (q : List Button) (st : Option Button)
    (hst : st ≠ some b) (mvs : List ℚ) (hne : mvs ≠ [])
    (h : ∀ mv ∈ mvs, detect_button mv = some b) :
    pollRun (st, q) mvs = (some b, q ++ [b]) := by
  cases mvs with
  | nil => exact absurd rfl hne
  | cons m rest =>
    have hm : detect_button m = some b := h m (List.mem_cons_self m rest)
    have hstep : pollStep (st, q) m = (some b, q ++ [b]) := by
      unfold pollStep
      rw [hm]
      rw [if_neg fun hc => hst hc.symm]
      rfl
    unfold pollRun
    rw [List.foldl_cons]
    rw [hstep]
    exact pollRun_held b (q ++ [b]) rest
      fun mv hmv => h mv (List.mem_cons_of_mem m hmv)

/-- Claim C7: with the poller modelled as a fold over voltage samples
with a last-press accumulator starting at `none`, a nonempty sequence of
samples all mapping to the same button appends exactly one event, and a
press-release-repress sequence (samples mapping to the button, then to no
button, then to the button again) appends exactly two events. -/
theorem claim7_debounce :
    (∀ (b : Button) (mvs : List ℚ), mvs ≠ [] →
      (∀ mv ∈ mvs, detect_button mv = some b) →
      pollRun (none, []) mvs = (some b, [b])) ∧
    (∀ (b : Button) (mvs1 mvs2 mvs3 : List ℚ),
      mvs1 ≠ [] → mvs2 ≠ [] → mvs3 ≠ [] →
      (∀ mv ∈ mvs1, detect_button mv = some b) →
      (∀ mv ∈ mvs2, detect_button mv = none) →
      (∀ mv ∈ mvs3, detect_button mv = some b) →
      pollRun (none, []) (mvs1 ++ mvs2 ++ mvs3) = (some b, [b, b])) := by
  constructor
  · intro b mvs hne h
    exact pollRun_press b [] none (by simp) mvs hne h
  · intro b mvs1 mvs2 mvs3 h1 h2 h3 hd1 hd2 hd3
    unfold pollRun
    rw [List.foldl_append, List.foldl_append]
    have e1 : mvs1.foldl pollStep (none, []) = (some b, [b]) :=
      pollRun_press b [] none (by simp) mvs1 h1 hd1
    rw [e1]
    have e2 : mvs2.foldl pollStep (some b, [b]) = (none, [b]) :=
      pollRun_released (some b) [b] mvs2 h2 hd2
    rw [e2]
    exact pollRun_press b [b] none (by simp) mvs3 h3 hd3

/-- Witness for C7: holding ENTER for three samples emits one event, and
pressing ENTER, releasing (sentinel sample), and pressing again emits
exactly two. -/
theorem claim7_debounce_witness :
    pollRun (none, []) [0, 1, 2] = (some Button.enter, [Button.enter]) ∧
    pollRun (none, []) ([0] ++ [9999] ++ [5]) =
      (some Button.enter, [Button.enter, Button.enter]) :=
  ⟨claim7_debounce.1 Button.enter [0, 1, 2] (by decide)
      (by intro mv hmv; fin_cases hmv <;> decide),
   claim7_debounce.2 Button.enter [0] [9999] [5]
      (by decide) (by decide) (by decide)
      (by intro mv hmv; fin_cases hmv; decide)
      (by intro mv hmv; fin_cases hmv; decide)
      (by intro mv hmv; fin_cases hmv; decide)⟩

/-! ## Arg-max classification (C2, C6) -/

/-- The arg-max index is a valid index of a nonempty list. -/
lemma argmaxIdx_lt_length : ∀ (l : List ℚ), l ≠ [] → argmaxIdx l < l.length
  | [], h => absurd rfl h
  | [_], _ => by simp [argmaxIdx]
  | x :: y :: rest, _ => by
    have ih := argmaxIdx_lt_length (y :: rest) (by simp)
    unfold argmaxIdx
    dsimp only
    split
    · simp only [List.length_cons] at ih ⊢
      omega
    · simp

/-- The value at the arg-max index dominates every entry of the list. -/
lemma argmaxIdx_is_max : ∀ (l : List ℚ) (j : Nat), j < l.length →
    l.getD j 0 ≤ l.getD (argmaxIdx l) 0
  | [], _, h => by simp at h
  | [x], 0, _ => by simp [argmaxIdx]
  | [_], j + 1, h => by simp at h
  | x :: y :: rest, j, h => by
    have ih := fun (k : Nat) (hk : k < (y :: rest).length) =>
      argmaxIdx_is_max (y :: rest) k hk
    unfold argmaxIdx
    dsimp only
    split
    case isTrue hcond =>
      rw [List.getD_cons_succ]
      cases j with
      | zero =>
        rw [List.getD_cons_zero]
        exact le_of_lt hcond
      | succ k =>
        rw [List.getD_cons_succ]
        exact ih k (by simp only [List.length_cons] at h ⊢; omega)
    case isFalse hcond =>
      rw [List.getD_cons_zero]
      push_neg at hcond
      cases j with
      | zero => rw [List.getD_cons_zero]
      | succ k =>
        rw [List.getD_cons_succ]
        exact le_trans
          (ih k (by simp only [List.length_cons] at h ⊢; omega)) hcond

/-- Claim C2: for every output vector of the model's shape (length equal
to the class count), `classify` returns Undetected exactly when the
maximum value is strictly below the 0.8 threshold, and otherwise — the
boundary value 0.8 included — returns the class name at the arg-max index
together with that maximum value as the confidence. -/
theorem claim2_threshold_classification (output : List ℚ)
    (hlen : output.length = CLASS_NAMES.length) :
    (∀ j, j < output.length →
      output.getD j 0 ≤ output.getD (argmaxIdx output) 0) ∧
    (output.getD (argmaxIdx output) 0 < CONF_THRESHOLD →
      classifyFn output =
        some (UNDETECTED_LABEL, output.getD (argmaxIdx output) 0, output)) ∧
    (CONF_THRESHOLD ≤ output.getD (argmaxIdx output) 0 →
      classifyFn output =
        some (CLASS_NAMES.getD (argmaxIdx output) "",
              output.getD (argmaxIdx output) 0, output)) := by
  have hne : output ≠ [] := by
    intro h
    rw [h] at hlen
    simp [CLASS_NAMES] at hlen
  refine ⟨fun j hj => argmaxIdx_is_max output j hj, ?_, ?_⟩
  · intro hlt
    cases output with
    | nil => exact absurd rfl hne
    | cons a l =>
      unfold classifyFn
      dsimp only
      rw [if_pos hlt]
  · intro hge
    cases output with
    | nil => exact absurd rfl hne
    | cons a l =>
      unfold classifyFn
      dsimp only
      rw [if_neg (not_lt.mpr hge),
        if_pos (by rw [← hlen]; exact argmaxIdx_lt_length (a :: l) (by simp))]

/-- Witness for C2 at the boundary: the vector with maximum exactly 0.8
at index 0 is classified Detected with label "MSG" and confidence 0.8. -/
theorem claim2_threshold_classification_witness :
    classifyFn [(4 : ℚ)/5, 0, 0] =
      some (CLASS_NAMES.getD (argmaxIdx [(4 : ℚ)/5, 0, 0]) "",
            [(4 : ℚ)/5, 0, 0].getD (argmaxIdx [(4 : ℚ)/5, 0, 0]) 0,
            [(4 : ℚ)/5, 0, 0]) :=
  (claim2_threshold_classification [4/5, 0, 0] (by decide)).2.2
    (by norm_num [argmaxIdx, CONF_THRESHOLD])

/-- Claim C6 as stated is false on the code: `classify` takes the raw
model output with no normalization, so the output vector [2, 0, 0] is
classified Detected with confidence 2, which exceeds 1. -/
theorem claim6_confidence_bound_counterexample :
    classifyFn [2, 0, 0] = some ("MSG", 2, [2, 0, 0]) ∧ ¬ ((2 : ℚ) ≤ 1) := by
  constructor
  · norm_num [classifyFn, argmaxIdx, CONF_THRESHOLD, CLASS_NAMES]
  · norm_num

/-- Claim C6, amended: when every entry of the model output vector lies
in [0, 1] (a probability-like vector, as §4.5 of the spec assumes the
model produces), the confidence carried by the outcome — Detected or
Undetected — lies in [0, 1]. -/
theorem claim6_confidence_bound_amended (output : List ℚ)
    (h01 : ∀ x ∈ output, 0 ≤ x ∧ x ≤ 1)
    (lbl : String) (conf : ℚ) (probs : List ℚ)
    (h : classifyFn output = some (lbl, conf, probs)) :
    0 ≤ conf ∧ conf ≤ 1 := by
  cases output with
  | nil => simp [classifyFn] at h
  | cons a l =>
    have hlt := argmaxIdx_lt_length (a :: l) (by simp)
    have hmem : (a :: l).getD (argmaxIdx (a :: l)) 0 ∈ a :: l := by
      rw [List.getD_eq_getElem (a :: l) 0 hlt]
      exact List.getElem_mem hlt
    have hbound := h01 _ hmem
    unfold classifyFn at h
    dsimp only at h
    split at h
    · simp only [Option.some.injEq, Prod.mk.injEq] at h
      rw [← h.2.1]
      exact hbound
    · split at h
      · simp only [Option.some.injEq, Prod.mk.injEq] at h
        rw [← h.2.1]
        exact hbound
      · exact absurd h (by simp)

/-- Witness for the amended C6 on the probability vector
[1/2, 1/4, 1/4], whose outcome is Undetected with confidence 1/2. -/
theorem claim6_confidence_bound_amended_witness :
    (0 : ℚ) ≤ 1/2 ∧ (1 : ℚ)/2 ≤ 1 :=
  claim6_confidence_bound_amended [1/2, 1/4, 1/4]
    (by intro x hx; fin_cases hx <;> constructor <;> norm_num)
    "Undetected" (1/2) [1/2, 1/4, 1/4]
    (by norm_num [classifyFn, argmaxIdx, CONF_THRESHOLD, UNDETECTED_LABEL])

/-! ## Staleness guard and pipeline (C3, C5, C10, C4) -/

/-- The try-block always records the accepted artifact. -/
lemma processArtifact_processed (env : Env) (latest : FileEntry) :
    (processArtifact env latest).processed = some latest := by
  unfold processArtifact
  cases env.readAbs with
  | none => rfl
  | some vals =>
    dsimp only
    split
    · rfl
    · split
      · rfl
      · split
        · rfl
        · rfl

/-- Shape of a `main` run: either one of the early returns (`None`
returned, nothing processed, model untouched), or the accepted artifact
is processed and it is strictly fresher than any recorded baseline. -/
lemma mainRun_cases (env : Env) :
    mainRun env = ⟨none, false, none⟩ ∨
    ∃ latest, find_latest_csv env.postFiles = some latest ∧
      (∀ m, baselineOf env = some m → m < latest.mtime) ∧
      mainRun env = processArtifact env latest := by
  unfold mainRun
  dsimp only
  cases hs : env.scanOk with
  | false => left; simp
  | true =>
    simp only [Bool.not_true, Bool.false_eq_true, if_false]
    cases hl : find_latest_csv env.postFiles with
    | none => left; rfl
    | some latest =>
      cases hb : baselineOf env with
      | none =>
        right
        refine ⟨latest, rfl, fun m hm => absurd hm (by simp), ?_⟩
        dsimp only
      | some m =>
        dsimp only
        by_cases hle : latest.mtime ≤ m
        · left
          rw [if_pos hle]
        · right
          refine ⟨latest, rfl, ?_, by rw [if_neg hle]⟩
          intro m2 hm2
          injection hm2 with hm2
          rw [← hm2]
          exact lt_of_not_le hle

/-- Claim C3: with a baseline mtime recorded before the scan, resolution
never yields an artifact whose mtime is at or below the baseline — when
no candidate exists, or the newest candidate's mtime does not strictly
exceed the baseline, `main` takes the not-found early return (processing
nothing and never invoking the model) instead of reusing the stale
artifact. -/
theorem claim3_staleness_guard (env : Env) (m : ℚ)
    (hbase : baselineOf env = some m) :
    (∀ a, (mainRun env).processed = some a → m < a.mtime) ∧
    (find_latest_csv env.postFiles = none →
      mainRun env = ⟨none, false, none⟩) ∧
    (∀ latest, find_latest_csv env.postFiles = some latest →
      latest.mtime ≤ m → mainRun env = ⟨none, false, none⟩) := by
  refine ⟨?_, ?_, ?_⟩
  · intro a ha
    rcases mainRun_cases env with h | ⟨latest, hl, hfresh, heq⟩
    · rw [h] at ha
      exact absurd ha (by simp)
    · rw [heq, processArtifact_processed] at ha
      injection ha with ha
      rw [← ha]
      exact hfresh m hbase
  · intro hnone
    rcases mainRun_cases env with h | ⟨latest, hl, hfresh, heq⟩
    · exact h
    · rw [hnone] at hl
      exact absurd hl (by simp)
  · intro latest hl hle
    rcases mainRun_cases env with h | ⟨latest2, hl2, hfresh, heq⟩
    · exact h
    · rw [hl] at hl2
      injection hl2 with hl2
      have hm := hfresh m hbase
      rw [← hl2] at hm
      exact absurd hle (not_le.mpr hm)

/-- Witness for C3: with a pre-scan artifact of mtime 10 and a post-scan
directory whose only candidate still has mtime 10, `main` takes the
not-found early return. -/
theorem claim3_staleness_guard_witness :
    mainRun ⟨[⟨"1", true, 10⟩], true, [⟨"1", true, 10⟩],
             none, 227, fun _ => none⟩ = ⟨none, false, none⟩ :=
  (claim3_staleness_guard
      ⟨[⟨"1", true, 10⟩], true, [⟨"1", true, 10⟩], none, 227, fun _ => none⟩
      10 (by decide)).2.2 ⟨"1", true, 10⟩ (by decide) (by decide)

/-- Claim C5: whenever the accepted artifact's absorbance series contains
the NaN sentinel or has fewer than 228 points, `main` returns the
data-validation triple — empty label, confidence 0, the "scan again"
message — and the inference model is never invoked. -/
theorem claim5_validation_precedes_inference (env : Env)
    (vals : List AbsVal) (latest : FileEntry)
    (hread : env.readAbs = some vals)
    (hbad : hasNaN vals = true ∨ vals.length < 228)
    (hproc : (mainRun env).processed = some latest) :
    (mainRun env).ret = some ("", 0, SCAN_AGAIN_MSG) ∧
    (mainRun env).modelInvoked = false := by
  rcases mainRun_cases env with h | ⟨latest2, hl, hfresh, heq⟩
  · rw [h] at hproc
    exact absurd hproc (by simp)
  · rw [heq]
    unfold processArtifact
    rw [hread]
    dsimp only
    rw [if_pos ?_]
    · exact ⟨rfl, rfl⟩
    · rcases hbad with h1 | h1
      · rw [h1]
        simp
      · rw [Bool.or_eq_true]
        right
        exact decide_eq_true h1

/-- Witness for C5: a fresh artifact whose absorbance read yields the
two-point series [NaN, 1] takes the validation early return without
touching the model. -/
theorem claim5_validation_precedes_inference_witness :
    (mainRun ⟨[], true, [⟨"2", true, 20⟩], some [.nan, .val 1], 227,
              fun _ => none⟩).ret = some ("", 0, SCAN_AGAIN_MSG) ∧
    (mainRun ⟨[], true, [⟨"2", true, 20⟩], some [.nan, .val 1], 227,
              fun _ => none⟩).modelInvoked = false :=
  claim5_validation_precedes_inference
    ⟨[], true, [⟨"2", true, 20⟩], some [.nan, .val 1], 227, fun _ => none⟩
    [.nan, .val 1] ⟨"2", true, 20⟩ rfl (by left; decide) (by decide)

/-! ## Worker write-back on failure (C10, C4) -/

/-- Unpacking a `None` from `classify.main` raises `TypeError` in the
worker, whose handler writes ERROR with the short code "CRASH" and the
exception text as the detail. -/
lemma workerFinish_of_ret_none (s : AppState) (env : Env)
    (h : (mainRun env).ret = none) :
    workerFinish s (workerOutcome env) =
      { s with scanStatus := .error, resultText := "CRASH",
               confText := "cannot unpack non-iterable NoneType object" } := by
  unfold workerOutcome
  rw [h]
  rfl

/-- A triple with a nonempty error string makes the worker write ERROR
with the short code "SYS ERR" and the error string as the detail. -/
lemma workerFinish_of_ret_err (s : AppState) (env : Env) (label : String)
    (conf : ℚ) (err : String)
    (h : (mainRun env).ret = some (label, conf, err)) (hne : err ≠ "") :
    workerFinish s (workerOutcome env) =
      { s with scanStatus := .error, resultText := "SYS ERR",
               confText := err } := by
  unfold workerOutcome
  rw [h]
  dsimp only
  unfold workerFinish
  dsimp only
  rw [if_pos hne]

/-- The worker write-back never touches `self.running`. -/
lemma workerFinish_running (s : AppState) (o : WorkerOutcome) :
    (workerFinish s o).running = s.running := by
  cases o with
  | crash msg => rfl
  | ok res conf err =>
    unfold workerFinish
    dsimp only
    split
    · rfl
    · split <;> rfl

/-- The only transition of `handle_input` that clears `self.running` is
ENTER on the menu with the focus off item 0 (the SYSTEM OFF item). -/
lemma handle_input_running (s : AppState) (key : Button)
    (h : (handle_input s key).running = false) (hr : s.running = true) :
    s.currentScreen = .menu ∧ key = .enter ∧ s.focusIndex ≠ 0 := by
  obtain ⟨run, scr, foc, st, rt, ct, aw⟩ := s
  dsimp only at hr
  subst hr
  cases scr with
  | menu =>
    cases key with
    | enter =>
      by_cases hf : foc = 0
      · subst hf
        simp [handle_input] at h
      · exact ⟨rfl, rfl, hf⟩
    | up => simp [handle_input] at h
    | down => simp [handle_input] at h
    | right => simp [handle_input] at h
  | scan =>
    cases key with
    | enter =>
      simp only [handle_input] at h
      split at h <;> simp [start_scan] at h
    | up => simp [handle_input] at h
    | down => simp [handle_input] at h
    | right => simp [handle_input] at h

/-- Claim C10: `classify.main` does not always return the three-way
triple the worker unpacks.  On the acquisition-failure path, the
no-artifact path, the stale-artifact path and the trailing exception
handler (here: a failing absorbance read) it returns `None`; the worker's
unpacking of `None` then raises `TypeError`, which only the worker's
catch-all handler converts into the ERROR display with code "CRASH". -/
theorem claim10_none_return_paths :
    (mainRun ⟨[], false, [], none, 227, fun _ => none⟩).ret = none ∧
    (mainRun ⟨[], true, [], none, 227, fun _ => none⟩).ret = none ∧
    (mainRun ⟨[⟨"1", true, 10⟩], true, [⟨"1", true, 10⟩], none, 227,
              fun _ => none⟩).ret = none ∧
    (mainRun ⟨[], true, [⟨"2", true, 20⟩], none, 227,
              fun _ => none⟩).ret = none ∧
    (∀ (env : Env) (s : AppState), (mainRun env).ret = none →
      workerFinish s (workerOutcome env) =
        { s with scanStatus := .error, resultText := "CRASH",
                 confText := "cannot unpack non-iterable NoneType object" }) :=
  ⟨by decide, by decide, by decide, by decide,
   fun env s h => workerFinish_of_ret_none s env h⟩

/-- Witness for C10: the TypeError conversion applied to the concrete
acquisition-failure environment while a scan is displayed. -/
theorem claim10_none_return_paths_witness :
    workerFinish ⟨true, .scan, 0, .scanning, "", "", 1⟩
        (workerOutcome ⟨[], false, [], none, 227, fun _ => none⟩) =
      ⟨true, .scan, 0, .error, "CRASH",
       "cannot unpack non-iterable NoneType object", 1⟩ :=
  claim10_none_return_paths.2.2.2.2 ⟨[], false, [], none, 227, fun _ => none⟩
    ⟨true, .scan, 0, .scanning, "", "", 1⟩ (by decide)

/-- Claim C4: every fatal per-scan failure inside the worker — an
exception (modelled by `main` returning `None`, which the unpacking turns
into `TypeError`) or a per-scan error string — ends with `scan_status`
set to ERROR together with a short code ("CRASH" or "SYS ERR") and a
detail string, while `self.running` is untouched by the worker; and the
only input transition that clears `self.running` is ENTER on the menu
with the focus on SYSTEM OFF (index 1). -/
theorem claim4_error_containment :
    (∀ (s : AppState) (o : WorkerOutcome),
      (workerFinish s o).running = s.running) ∧
    (∀ (s : AppState) (env : Env), (mainRun env).ret = none →
      workerFinish s (workerOutcome env) =
        { s with scanStatus := .error, resultText := "CRASH",
                 confText := "cannot unpack non-iterable NoneType object" }) ∧
    (∀ (s : AppState) (env : Env) (label : String) (conf : ℚ) (err : String),
      (mainRun env).ret = some (label, conf, err) → err ≠ "" →
      workerFinish s (workerOutcome env) =
        { s with scanStatus := .error, resultText := "SYS ERR",
                 confText := err }) ∧
    (∀ (s : AppState) (key : Button),
      (handle_input s key).running = false → s.running = true →
      s.currentScreen = .menu ∧ key = .enter ∧ s.focusIndex ≠ 0) :=
  ⟨workerFinish_running,
   fun s env h => workerFinish_of_ret_none s env h,
   fun s env label conf err h hne =>
     workerFinish_of_ret_err s env label conf err h hne,
   handle_input_running⟩

/-- Witness for C4: the worker write-back of a crash outcome keeps
`running` true, and the concrete SYSTEM OFF press (menu, focus 1) is a
transition the running-clearing characterization accepts. -/
theorem claim4_error_containment_witness :
    (workerFinish ⟨true, .scan, 0, .scanning, "", "", 1⟩
        (.crash "boom")).running = true ∧
    (Screen.menu = Screen.menu ∧ Button.enter = Button.enter ∧
      (1 : Nat) ≠ 0) :=
  ⟨by rw [claim4_error_containment.1],
   claim4_error_containment.2.2.2 ⟨true, .menu, 1, .idle, "", "", 0⟩
     .enter (by decide) rfl⟩

end Scanner
